import Mathlib

/-!
Verification of the identity, token-lifecycle and authorization core of the
TaskPM multi-service backend: JWT issuance/verification
(`shared/shared/auth/__init__.py`), refresh-token revocation and refresh
(`services/auth_service/app/services/__init__.py`), the RBAC permission engine
(`shared/shared/auth/rbac.py`) and the edge gateway
(`services/api_gateway/app/main.py`), shallowly embedded in Lean.

Time is modelled as seconds since the epoch (`Nat`); JSON claim payloads as
association lists over `String` keys; Redis as an explicit store value threaded
through the operations.
-/

set_option maxRecDepth 4000

namespace TaskPM

/-- A JSON-ish claim value: the payloads in this system only carry strings
(sub, email, org_id, org_role, type, jti) and integral timestamps (iat, exp). -/
inductive JValue where
  | str : String → JValue
  | nat : Nat → JValue
deriving DecidableEq, Repr

/-- A claims payload: a Python `dict[str, Any]` with no duplicate keys,
modelled as an association list preserving insertion order. -/
abbrev Claims := List (String × JValue)

namespace Claims

/-- `d.get(k)` on a Python dict. -/
def get : Claims → String → Option JValue
  | [], _ => none
  | (k', v) :: rest, k => if k' = k then some v else get rest k

/-- `d[k] = v` on a Python dict: replace the first binding of `k`,
or append a fresh binding at the end (dicts keep insertion order). -/
def setKey : Claims → String → JValue → Claims
  | [], k, v => [(k, v)]
  | (k', v') :: rest, k, v =>
    if k' = k then (k, v) :: rest else (k', v') :: setKey rest k v

/-- `d.update(kvs)` on a Python dict: set each pair in order. -/
def updateMany (m : Claims) (kvs : Claims) : Claims :=
  kvs.foldl (fun acc p => setKey acc p.1 p.2) m

/-- Truthiness-filtered string read: Python `payload.get(k)` used in a boolean
context (`if claims.get(k):` / `a or b`), where `None` and `""` are falsy and
an int is truthy iff nonzero. Returns the value rendered as the string Python
would interpolate. -/
def truthyStr (m : Claims) (k : String) : Option String :=
  match m.get k with
  | some (.str s) => if s = "" then none else some s
  | some (.nat n) => if n = 0 then none else some (toString n)
  | none => none

theorem get_setKey_same (m : Claims) (k : String) (v : JValue) :
    (setKey m k v).get k = some v := by
  induction m with
  | nil => simp [setKey, get]
  | cons p rest ih =>
    obtain ⟨k', v'⟩ := p
    by_cases h : k' = k
    · simp [setKey, h, get]
    · simpa [setKey, h, get] using ih

theorem get_setKey_other (m : Claims) (k k' : String) (v : JValue)
    (h : k ≠ k') : (setKey m k v).get k' = m.get k' := by
  induction m with
  | nil => simp [setKey, get, h]
  | cons p rest ih =>
    obtain ⟨ka, va⟩ := p
    by_cases hp : ka = k
    · subst hp
      simp [setKey, get, h]
    · by_cases hk' : ka = k'
      · subst hk'
        simp [setKey, hp, get]
      · simpa [setKey, hp, get, hk'] using ih

end Claims

/-- An RS256 key: a private or public half of a numbered key pair. -/
inductive Key where
  | priv : Nat → Key
  | pub : Nat → Key
deriving DecidableEq, Repr

/-- A public key verifies a signature made with the private key of the same
pair. -/
def Key.verifies : Key → Key → Bool
  | .pub i, .priv j => i = j
  | _, _ => false

/-- A signed JWT: the encoded payload together with the signing key and the
algorithm recorded in the header. The wire form is an opaque signed string;
here we keep the structure and provide `tokenString` for the places the code
uses the raw compact serialization as data. -/
structure JWT where
  payload : Claims
  signedWith : Key
  alg : String
deriving DecidableEq, Repr

/-- Render a key for the serialization. -/
def Key.enc : Key → String
  | .priv i => "priv." ++ toString i
  | .pub i => "pub." ++ toString i

/-- Render one claim value for the serialization. -/
def JValue.enc : JValue → String
  | .str s => "s:" ++ s
  | .nat n => "n:" ++ toString n

/-- The compact serialization of a token: the string the Python code passes
around as `refresh_token` / `credentials.credentials`. -/
def tokenString (t : JWT) : String :=
  String.intercalate ";" (t.payload.map (fun p => p.1 ++ "=" ++ p.2.enc))
    ++ "|" ++ t.signedWith.enc ++ "|" ++ t.alg

/-- A raised `fastapi.HTTPException`: status code, detail message, extra
response headers. -/
structure HTTPException where
  status : Nat
  detail : String
  headers : List (String × String) := []
deriving DecidableEq, Repr

/-- A Python exception escaping one of the embedded functions. -/
inductive PyErr where
  | http : HTTPException → PyErr
  | keyError : String → PyErr
  | valueError : String → PyErr
deriving DecidableEq, Repr

/-- Failure of `jose.jwt.decode`. -/
inductive JWTError where
  | invalidSignature
  | expired
deriving DecidableEq, Repr

/-- Modelled from the spec: `jose.jwt.decode` (third-party library behind
`verify_token`) — "`verify(token, public_key) -> claims |
fails(InvalidSignature | Expired | Malformed)`: signature and expiry check
only", and "succeeds iff `now < exp`". The algorithm in the token header must
be among the accepted algorithms and the public key must match the signing
private key; then the `exp` claim is checked against the current time. -/
def jwtDecode (t : JWT) (key : Key) (alg : String) (now : Nat) :
    Except JWTError Claims :=
  if key.verifies t.signedWith = true ∧ t.alg = alg then
    match t.payload.get "exp" with
    | some (.nat e) => if now < e then .ok t.payload else .error .expired
    | _ => .ok t.payload
  else
    .error .invalidSignature

/-- `shared.auth.create_access_token`: copy the claims, stamp
`exp = now + expires_delta`, `iat = now`, `type = "access"`, and sign. -/
def create_access_token (data : Claims) (private_key : Key) (alg : String)
    (now : Nat) (expires_delta : Nat) : JWT :=
  { payload :=
      Claims.updateMany data
        [("exp", .nat (now + expires_delta)), ("iat", .nat now),
         ("type", .str "access")]
    signedWith := private_key
    alg := alg }

/-- `shared.auth.create_refresh_token`: as for access tokens but
`type = "refresh"` plus a fresh `jti` (the random uuid is passed in). -/
def create_refresh_token (data : Claims) (private_key : Key) (alg : String)
    (now : Nat) (expires_delta : Nat) (jti : String) : JWT :=
  { payload :=
      Claims.updateMany data
        [("exp", .nat (now + expires_delta)), ("iat", .nat now),
         ("type", .str "refresh"), ("jti", .str jti)]
    signedWith := private_key
    alg := alg }

/-- `shared.auth.verify_token`: decode, converting any `JWTError` into a 401
`HTTPException` with a `WWW-Authenticate: Bearer` header. -/
def verify_token (token : JWT) (public_key : Key) (alg : String) (now : Nat) :
    Except HTTPException Claims :=
  match jwtDecode token public_key alg now with
  | .ok payload => .ok payload
  | .error _ =>
      .error { status := 401, detail := "Invalid token",
               headers := [("WWW-Authenticate", "Bearer")] }

/-- `shared.auth.TokenData`: the decoded principal. -/
structure TokenData where
  user_id : String
  email : String
  org_id : Option String := none
  org_role : Option String := none
deriving DecidableEq, Repr

/-- Plain optional string read of a claim (`payload.get(k)` stored into an
`Optional[str]` field). -/
def Claims.getStr (m : Claims) (k : String) : Option String :=
  match m.get k with
  | some (.str s) => some s
  | _ => none

/-- `payload.get("email", "")`. -/
def Claims.getStrD (m : Claims) (k : String) (d : String) : String :=
  match m.get k with
  | some (.str s) => s
  | _ => d

/-- `shared.auth.get_current_user`'s dependency body: verify the bearer
credential, reject any token whose `type` claim is not `"access"` with 401,
resolve `org_id` with claim-over-header priority (Python `or`, so an empty
claim falls back to the header), and read `payload["sub"]` (a `KeyError` if
absent). -/
def get_current_user (token : JWT) (public_key : Key) (alg : String)
    (now : Nat) (x_org_id_header : Option String) :
    Except PyErr TokenData :=
  match verify_token token public_key alg now with
  | .error e => .error (.http e)
  | .ok payload =>
    if payload.get "type" ≠ some (.str "access") then
      .error (.http { status := 401, detail := "Invalid token type" })
    else
      let org_id :=
        match payload.truthyStr "org_id" with
        | some s => some s
        | none => x_org_id_header
      match payload.get "sub" with
      | some (.str sub) =>
          .ok { user_id := sub, email := payload.getStrD "email" "",
                org_id := org_id, org_role := payload.getStr "org_role" }
      | some (.nat n) =>
          .ok { user_id := toString n, email := payload.getStrD "email" "",
                org_id := org_id, org_role := payload.getStr "org_role" }
      | none => .error (.keyError "sub")

/-! ## Redis key-value store (string keys, TTL-expiring entries) -/

/-- A Redis string store: each live entry is `(key, value, expiresAt)`. -/
structure RedisStore where
  entries : List (String × String × Nat)
deriving DecidableEq, Repr

namespace RedisStore

/-- `GET key` at time `now`: the value, unless absent or its TTL has
elapsed. -/
def get (s : RedisStore) (now : Nat) (k : String) : Option String :=
  match s.entries.find? (fun e => e.1 = k ∧ now < e.2.2) with
  | some e => some e.2.1
  | none => none

/-- `SETEX key ttl value` at time `now`. -/
def setex (s : RedisStore) (now : Nat) (k : String) (ttl : Nat) (v : String) :
    RedisStore :=
  ⟨(k, v, now + ttl) :: s.entries.filter (fun e => e.1 ≠ k)⟩

theorem get_setex_same (s : RedisStore) (now t : Nat) (k : String) (ttl : Nat)
    (v : String) (h : t < now + ttl) :
    (s.setex now k ttl v).get t k = some v := by
  simp [setex, get, List.find?, h]

theorem find_skip_filtered_key (k k' : String) (t : Nat) (h : k ≠ k') :
    ∀ l : List (String × String × Nat),
      (l.filter (fun e => decide (e.1 ≠ k))).find?
          (fun e => decide (e.1 = k' ∧ t < e.2.2))
        = l.find? (fun e => decide (e.1 = k' ∧ t < e.2.2))
  | [] => rfl
  | e :: rest => by
    by_cases he : e.1 = k
    · have h1 : (decide (e.1 ≠ k)) = false := by simp [he]
      have h2 : (decide (e.1 = k' ∧ t < e.2.2)) = false := by simp [he, h]
      simp only [List.filter_cons, h1, if_false, Bool.false_eq_true,
        List.find?_cons, h2, find_skip_filtered_key k k' t h rest]
    · have h1 : (decide (e.1 ≠ k)) = true := by simp [he]
      by_cases hp : e.1 = k' ∧ t < e.2.2
      · have h2 : (decide (e.1 = k' ∧ t < e.2.2)) = true := by simp [hp]
        simp only [List.filter_cons, h1, if_true, List.find?_cons, h2]
      · have h2 : (decide (e.1 = k' ∧ t < e.2.2)) = false := by simpa using hp
        simp only [List.filter_cons, h1, if_true, List.find?_cons, h2,
          find_skip_filtered_key k k' t h rest]

theorem get_setex_other (s : RedisStore) (now t : Nat) (k k' : String)
    (ttl : Nat) (v : String) (h : k ≠ k') :
    (s.setex now k ttl v).get t k' = s.get t k' := by
  have h2 : (decide (k = k' ∧ t < now + ttl)) = false := by simp [h]
  simp only [setex, get, List.find?_cons, h2]
  rw [find_skip_filtered_key k k' t h s.entries]

end RedisStore

/-! ## AuthService (`services/auth_service/app/services/__init__.py`) -/

/-- The configuration slice of `AuthService.__init__` the token-lifecycle
operations use: key material, algorithm and TTLs (held in seconds). -/
structure AuthServiceCfg where
  private_key : Key
  public_key : Key
  algorithm : String
  access_expire : Nat
  refresh_expire : Nat
deriving Repr

/-- `f"blacklist:{x}"`. -/
def blacklistKey (x : String) : String := "blacklist:" ++ x

/-- What the refresh token's payload yields as revocation key in `logout`:
`payload.get("jti", refresh_token)` — the `jti` claim if present, otherwise
the raw token string. -/
def jtiOrToken (payload : Claims) (token : JWT) : String :=
  match payload.get "jti" with
  | some (.str j) => j
  | some (.nat n) => toString n
  | none => tokenString token

/-- `AuthService.refresh_token`: reject if `blacklist:{refresh_token}` is set
in Redis; verify the token; reject unless `type == "refresh"`; rebuild the
claim set (`sub` mandatory, `email` defaulted, `org_id`/`org_role` copied when
present) and mint a new access token. -/
def AuthService.refresh_token (cfg : AuthServiceCfg) (store : RedisStore)
    (now : Nat) (refresh_tok : JWT) : Except PyErr JWT :=
  if (store.get now (blacklistKey (tokenString refresh_tok))).isSome then
    .error (.http { status := 401, detail := "Token has been revoked" })
  else
    match verify_token refresh_tok cfg.public_key cfg.algorithm now with
    | .error e => .error (.http e)
    | .ok payload =>
      if payload.get "type" ≠ some (.str "refresh") then
        .error (.http { status := 401, detail := "Invalid token type" })
      else
        match payload.get "sub" with
        | none => .error (.keyError "sub")
        | some sub =>
          let token_data : Claims :=
            [("sub", sub), ("email", .str (payload.getStrD "email" ""))]
          let token_data :=
            match payload.get "org_id" with
            | some v => token_data ++ [("org_id", v)]
            | none => token_data
          let token_data :=
            match payload.get "org_role" with
            | some v => token_data ++ [("org_role", v)]
            | none => token_data
          .ok (create_access_token token_data cfg.private_key cfg.algorithm
                now cfg.access_expire)

/-- `AuthService.logout`: verify the refresh token, then blacklist
`blacklist:{jti}` (falling back to the raw token string when the payload has
no `jti`) for the full configured refresh lifetime. -/
def AuthService.logout (cfg : AuthServiceCfg) (store : RedisStore) (now : Nat)
    (refresh_tok : JWT) : Except PyErr RedisStore :=
  match verify_token refresh_tok cfg.public_key cfg.algorithm now with
  | .error e => .error (.http e)
  | .ok payload =>
      .ok (store.setex now (blacklistKey (jtiOrToken payload refresh_tok))
            cfg.refresh_expire "1")

/-! ## RBAC permission engine (`shared/shared/auth/rbac.py`) -/

/-- `OrgRole`. -/
inductive OrgRole where
  | org_admin
  | proj_admin
  | member
deriving DecidableEq, Repr

/-- `str(Enum)` value of an org role. -/
def OrgRole.value : OrgRole → String
  | .org_admin => "org_admin"
  | .proj_admin => "proj_admin"
  | .member => "member"

/-- `OrgRole(s)`: `none` models the `ValueError` Python raises for a string
that is not a member value. -/
def OrgRole.ofString (s : String) : Option OrgRole :=
  if s = "org_admin" then some .org_admin
  else if s = "proj_admin" then some .proj_admin
  else if s = "member" then some .member
  else none

/-- `ProjectRole`. -/
inductive ProjectRole where
  | owner
  | admin
  | project_manager
  | team_member
  | viewer
deriving DecidableEq, Repr

/-- `str(Enum)` value of a project role. -/
def ProjectRole.value : ProjectRole → String
  | .owner => "owner"
  | .admin => "admin"
  | .project_manager => "project_manager"
  | .team_member => "team_member"
  | .viewer => "viewer"

/-- `ProjectRole(s)`: `none` models the `ValueError` for a non-member
string. -/
def ProjectRole.ofString (s : String) : Option ProjectRole :=
  if s = "owner" then some .owner
  else if s = "admin" then some .admin
  else if s = "project_manager" then some .project_manager
  else if s = "team_member" then some .team_member
  else if s = "viewer" then some .viewer
  else none

/-- `ProjectPermission`. -/
inductive ProjectPermission where
  | delete_project
  | edit_project
  | manage_members
  | assign_roles
  | create_task
  | edit_any_task
  | delete_any_task
  | edit_assigned_task
  | delete_assigned_task
  | assign_task
  | change_status
  | post_comment
  | log_time
  | manage_attachments
  | view
deriving DecidableEq, Repr

/-- `str(Enum)` value of a project permission. -/
def ProjectPermission.value : ProjectPermission → String
  | .delete_project => "delete_project"
  | .edit_project => "edit_project"
  | .manage_members => "manage_members"
  | .assign_roles => "assign_roles"
  | .create_task => "create_task"
  | .edit_any_task => "edit_any_task"
  | .delete_any_task => "delete_any_task"
  | .edit_assigned_task => "edit_assigned_task"
  | .delete_assigned_task => "delete_assigned_task"
  | .assign_task => "assign_task"
  | .change_status => "change_status"
  | .post_comment => "post_comment"
  | .log_time => "log_time"
  | .manage_attachments => "manage_attachments"
  | .view => "view"

/-- `OrgPermission`. -/
inductive OrgPermission where
  | manage_org_members
  | manage_org_roles
  | manage_projects
  | manage_teams
  | manage_org_settings
  | view_analytics
deriving DecidableEq, Repr

/-- `str(Enum)` value of an org permission. -/
def OrgPermission.value : OrgPermission → String
  | .manage_org_members => "manage_org_members"
  | .manage_org_roles => "manage_org_roles"
  | .manage_projects => "manage_projects"
  | .manage_teams => "manage_teams"
  | .manage_org_settings => "manage_org_settings"
  | .view_analytics => "view_analytics"

open ProjectPermission in
/-- `PROJECT_PERMISSIONS`: the fixed permission set of each project role. The
dict is total over the enum, so membership-with-default (`.get(role, set())`)
coincides with it. -/
def PROJECT_PERMISSIONS : ProjectRole → List ProjectPermission
  | .owner =>
      [delete_project, edit_project, manage_members, assign_roles, create_task,
       edit_any_task, delete_any_task, assign_task, change_status, post_comment,
       log_time, manage_attachments, view]
  | .admin =>
      [edit_project, manage_members, assign_roles, create_task, edit_any_task,
       delete_any_task, assign_task, change_status, post_comment, log_time,
       manage_attachments, view]
  | .project_manager =>
      [create_task, edit_any_task, delete_any_task, assign_task, change_status,
       post_comment, log_time, manage_attachments, view]
  | .team_member =>
      [create_task, edit_assigned_task, delete_assigned_task, change_status,
       post_comment, log_time, manage_attachments, view]
  | .viewer => [view]

open OrgPermission in
/-- `ORG_PERMISSIONS`: the fixed permission set of each org role. -/
def ORG_PERMISSIONS : OrgRole → List OrgPermission
  | .org_admin =>
      [manage_org_members, manage_org_roles, manage_projects, manage_teams,
       manage_org_settings, view_analytics]
  | .proj_admin => [manage_projects, manage_teams]
  | .member => []

/-- `PermissionResult`. -/
structure PermissionResult where
  role : String
  user_id : String
  org_id : String
  check_assignment : Bool := false
deriving DecidableEq, Repr

/-- `check_org_permission`: 403 when the principal has no org role (Python
truthiness: `None` or `""`), `ValueError` on an unrecognized role string, 403
when the role's set lacks the permission, success otherwise. -/
def check_org_permission (user : TokenData) (permission : OrgPermission) :
    Except PyErr Unit :=
  match user.org_role with
  | none =>
      .error (.http { status := 403, detail := "No organization role assigned" })
  | some r =>
    if r = "" then
      .error (.http { status := 403, detail := "No organization role assigned" })
    else
      match OrgRole.ofString r with
      | none => .error (.valueError r)
      | some user_role =>
        if permission ∈ ORG_PERMISSIONS user_role then
          .ok ()
        else
          .error (.http { status := 403,
                          detail := "Org Permission denied for role" })

/-- A project membership record: the `dict[str, Any]` passed into
`check_project_permission`; `none` models Python `None`. -/
abbrev Membership := Claims

/-- Python `if not membership:`: `None` or the empty dict. -/
def membershipFalsy : Option Membership → Bool
  | none => true
  | some m => m.isEmpty

/-- `check_project_permission`: `org_admin` principals short-circuit to
success; otherwise a falsy membership is a 403, the membership's `"role"`
entry is read (`KeyError` if absent) and parsed (`ValueError` if
unrecognized), the role's permission set is consulted (403 on a miss), and on
success `check_assignment` is set exactly for a `team_member` holding one of
the assigned-scoped task permissions. -/
def check_project_permission (user : TokenData)
    (membership : Option Membership) (permission : ProjectPermission) :
    Except PyErr PermissionResult :=
  if user.org_role = some "org_admin" then
    .ok { role := "org_admin", user_id := user.user_id,
          org_id := user.org_id.getD "" }
  else if membershipFalsy membership then
    .error (.http { status := 403, detail := "Not a member of this project" })
  else
    match (membership.getD []).get "role" with
    | none => .error (.keyError "role")
    | some (.nat n) => .error (.valueError (toString n))
    | some (.str rs) =>
      match ProjectRole.ofString rs with
      | none => .error (.valueError rs)
      | some role =>
        if permission ∈ PROJECT_PERMISSIONS role then
          .ok { role := role.value, user_id := user.user_id,
                org_id := user.org_id.getD "",
                check_assignment :=
                  role = ProjectRole.team_member ∧
                    (permission = ProjectPermission.edit_assigned_task ∨
                     permission = ProjectPermission.delete_assigned_task) }
        else
          .error (.http { status := 403,
                          detail := "Permission denied for role" })

/-- `get_org_permissions`: permission values for a role string, an empty list
when `OrgRole(role)` raises `ValueError`. -/
def get_org_permissions (role : String) : List String :=
  match OrgRole.ofString role with
  | some r => (ORG_PERMISSIONS r).map OrgPermission.value
  | none => []

/-- `get_project_permissions`: permission values for a role string, an empty
list when `ProjectRole(role)` raises `ValueError`. -/
def get_project_permissions (role : String) : List String :=
  match ProjectRole.ofString role with
  | some r => (PROJECT_PERMISSIONS r).map ProjectPermission.value
  | none => []

/-! ## API gateway (`services/api_gateway/app/main.py`) -/

/-- Python `str.startswith`, by characters (UTF-8 byte-level prefix testing
agrees with character-level prefix testing). -/
def pyStartsWith (s p : String) : Bool :=
  p.data.isPrefixOf s.data

/-- Python slicing `s[n:]`, by characters. -/
def pyDrop (s : String) (n : Nat) : String :=
  ⟨s.data.drop n⟩

/-- The state of one client identity's rate-limit key: the sorted-set members
(`(member, score)` pairs in insertion order) and the key's own expiry time
(`EXPIRE key 120` refreshed on every check). -/
structure RLState where
  members : List (String × Nat)
  expireAt : Nat
deriving DecidableEq, Repr

/-- A fresh (absent) rate-limit key. -/
def RLState.empty : RLState := ⟨[], 0⟩

/-- `ZADD key {member: score}`: update the member's score in place, or append
a new member. -/
def zadd : List (String × Nat) → String → Nat → List (String × Nat)
  | [], m, s => [(m, s)]
  | (m', s') :: rest, m, s =>
    if m' = m then (m, s) :: rest else (m', s') :: zadd rest m s

/-- `check_rate_limit`, one client identity's pipeline at time `now` with
per-request member `reqId`: drop members scored in `[0, now - 60]`, add the
current request, count, refresh the key expiry to `now + 120`, and deny with
429 and a `Retry-After: 60` header when the count exceeds the threshold.
A key whose Redis TTL has elapsed reads as empty. The window bound is
computed in `Int` as in Python, where `now - 60` may be negative. -/
def check_rate_limit (limit : Nat) (st : RLState) (now : Nat)
    (reqId : String) : RLState × Except HTTPException Unit :=
  let live := if st.expireAt ≤ now then [] else st.members
  let pruned := live.filter (fun e => ¬ ((e.2 : Int) ≤ (now : Int) - 60))
  let added := zadd pruned reqId now
  let st' : RLState := ⟨added, now + 120⟩
  if added.length > limit then
    (st', .error { status := 429, detail := "Rate limit exceeded",
                   headers := [("Retry-After", "60")] })
  else
    (st', .ok ())

/-- Run `check_rate_limit` over a sequence of `(arrival time, request id)`
pairs, collecting each request's outcome. -/
def rlRun (limit : Nat) (st : RLState) :
    List (Nat × String) → RLState × List (Except HTTPException Unit)
  | [] => (st, [])
  | (t, m) :: rest =>
    let (st', r) := check_rate_limit limit st t m
    let (stF, rs) := rlRun limit st' rest
    (stF, r :: rs)

/-- The outcome of the gateway `proxy` handler on one request. -/
inductive ProxyOutcome where
  | err : HTTPException → ProxyOutcome
  | forward : (base_url : String) → (downstream_path : String) →
      (xUserId : Option String) → (xOrgId : Option String) → ProxyOutcome
deriving DecidableEq, Repr

/-- The gateway settings the proxy decision logic reads. -/
structure GatewaySettings where
  public_key : Key
  jwt_algorithm : String
  auth_service_url : String := "http://auth_service:8001"
  org_service_url : String := "http://org_service:8002"
  project_service_url : String := "http://project_service:8003"
  task_service_url : String := "http://task_service:8004"
  notification_service_url : String := "http://notification_service:8005"
  file_service_url : String := "http://file_service:8006"
  rate_limit_per_minute : Nat := 120
deriving Repr

/-- `ROUTE_MAP`: `(path_prefix, settings attribute)` pairs, scanned in
order. -/
def ROUTE_MAP : List (String × (GatewaySettings → String)) :=
  [("/api/v1/auth", fun s => s.auth_service_url),
   ("/api/v1/organizations", fun s => s.org_service_url),
   ("/api/v1/projects", fun s => s.project_service_url),
   ("/api/v1/tasks", fun s => s.task_service_url),
   ("/api/v1/notifications", fun s => s.notification_service_url),
   ("/api/v1/files", fun s => s.file_service_url)]

/-- `PUBLIC_PATHS`: routes that do not require authentication. -/
def PUBLIC_PATHS : List String :=
  ["/api/v1/auth/register", "/api/v1/auth/login", "/api/v1/auth/refresh",
   "/health"]

/-- `any(full_path.startswith(p) for p in PUBLIC_PATHS)`. -/
def is_public_path (full_path : String) : Bool :=
  PUBLIC_PATHS.any (fun p => pyStartsWith full_path p)

/-- `resolve_service_url`: first route whose prefix matches, paired with the
downstream path (the request path with `/api/v1` stripped). -/
def resolve_service_url (settings : GatewaySettings) (path : String) :
    Option (String × String) :=
  match ROUTE_MAP.find? (fun e => pyStartsWith path e.1) with
  | some e => some (e.2 settings, pyDrop path "/api/v1".length)
  | none => none

/-- The `Authorization` header of an inbound request: absent, a value not of
the form `Bearer <token>`, or a bearer-carried token. -/
inductive AuthHeader where
  | missing
  | notBearer : String → AuthHeader
  | bearer : JWT → AuthHeader
deriving DecidableEq, Repr

/-- An inbound gateway request, reduced to the fields the proxy decision logic
reads. -/
structure GatewayRequest where
  full_path : String
  auth : AuthHeader
deriving DecidableEq, Repr

/-- The authentication block of `proxy`: empty claims for a public path;
otherwise a 401 for a missing or non-Bearer `Authorization` header, a 401
(wrapping the caught exception, without the `WWW-Authenticate` header) when
verification fails, and the verified claims on success. -/
def gateway_auth (settings : GatewaySettings) (now : Nat)
    (req : GatewayRequest) : Except HTTPException Claims :=
  if is_public_path req.full_path then
    .ok []
  else
    match req.auth with
    | .missing =>
        .error { status := 401,
                 detail := "Missing or invalid authorization header" }
    | .notBearer _ =>
        .error { status := 401,
                 detail := "Missing or invalid authorization header" }
    | .bearer tok =>
      match verify_token tok settings.public_key settings.jwt_algorithm now with
      | .ok payload => .ok payload
      | .error _ => .error { status := 401, detail := "Invalid token" }

/-- `proxy`: rate-limit by client identity, authenticate unless the path is
public, resolve the destination route (404 when none matches), and forward
with `X-Org-Id`/`X-User-Id` injected from truthy claims. `redis = none`
models the gateway running without a Redis client, where rate limiting is
skipped (fail-open). -/
def proxy (settings : GatewaySettings) (redis : Option RLState) (now : Nat)
    (reqId : String) (req : GatewayRequest) :
    Option RLState × ProxyOutcome :=
  let (redis', rlRes) :=
    match redis with
    | none => (none, Except.ok ())
    | some st =>
      let (st', r) := check_rate_limit settings.rate_limit_per_minute st now reqId
      (some st', r)
  match rlRes with
  | .error e => (redis', .err e)
  | .ok () =>
    match gateway_auth settings now req with
    | .error e => (redis', .err e)
    | .ok user_claims =>
      match resolve_service_url settings req.full_path with
      | none =>
          (redis', .err { status := 404,
                          detail := "Service not found for this path" })
      | some (base_url, downstream_path) =>
          (redis', .forward base_url downstream_path
            (user_claims.truthyStr "sub") (user_claims.truthyStr "org_id"))

/-! ## Helper lemmas about minted token payloads -/

theorem access_payload_type (data : Claims) (pk : Key) (alg : String)
    (now ttl : Nat) :
    (create_access_token data pk alg now ttl).payload.get "type" =
      some (.str "access") := by
  simp only [create_access_token, Claims.updateMany, List.foldl]
  exact Claims.get_setKey_same _ _ _

theorem access_payload_exp (data : Claims) (pk : Key) (alg : String)
    (now ttl : Nat) :
    (create_access_token data pk alg now ttl).payload.get "exp" =
      some (.nat (now + ttl)) := by
  simp only [create_access_token, Claims.updateMany, List.foldl]
  rw [Claims.get_setKey_other _ _ _ _ (by decide),
      Claims.get_setKey_other _ _ _ _ (by decide),
      Claims.get_setKey_same]

theorem access_payload_iat (data : Claims) (pk : Key) (alg : String)
    (now ttl : Nat) :
    (create_access_token data pk alg now ttl).payload.get "iat" =
      some (.nat now) := by
  simp only [create_access_token, Claims.updateMany, List.foldl]
  rw [Claims.get_setKey_other _ _ _ _ (by decide),
      Claims.get_setKey_same]

theorem access_payload_other (data : Claims) (pk : Key) (alg : String)
    (now ttl : Nat) (k : String) (h1 : k ≠ "exp") (h2 : k ≠ "iat")
    (h3 : k ≠ "type") :
    (create_access_token data pk alg now ttl).payload.get k =
      data.get k := by
  simp only [create_access_token, Claims.updateMany, List.foldl]
  rw [Claims.get_setKey_other _ _ _ _ (Ne.symm h3),
      Claims.get_setKey_other _ _ _ _ (Ne.symm h2),
      Claims.get_setKey_other _ _ _ _ (Ne.symm h1)]

theorem refresh_payload_type (data : Claims) (pk : Key) (alg : String)
    (now ttl : Nat) (jti : String) :
    (create_refresh_token data pk alg now ttl jti).payload.get "type" =
      some (.str "refresh") := by
  simp only [create_refresh_token, Claims.updateMany, List.foldl]
  rw [Claims.get_setKey_other _ _ _ _ (by decide),
      Claims.get_setKey_same]

theorem refresh_payload_exp (data : Claims) (pk : Key) (alg : String)
    (now ttl : Nat) (jti : String) :
    (create_refresh_token data pk alg now ttl jti).payload.get "exp" =
      some (.nat (now + ttl)) := by
  simp only [create_refresh_token, Claims.updateMany, List.foldl]
  rw [Claims.get_setKey_other _ _ _ _ (by decide),
      Claims.get_setKey_other _ _ _ _ (by decide),
      Claims.get_setKey_other _ _ _ _ (by decide),
      Claims.get_setKey_same]

theorem refresh_payload_other (data : Claims) (pk : Key) (alg : String)
    (now ttl : Nat) (jti k : String) (h1 : k ≠ "exp") (h2 : k ≠ "iat")
    (h3 : k ≠ "type") (h4 : k ≠ "jti") :
    (create_refresh_token data pk alg now ttl jti).payload.get k =
      data.get k := by
  simp only [create_refresh_token, Claims.updateMany, List.foldl]
  rw [Claims.get_setKey_other _ _ _ _ (Ne.symm h4),
      Claims.get_setKey_other _ _ _ _ (Ne.symm h3),
      Claims.get_setKey_other _ _ _ _ (Ne.symm h2),
      Claims.get_setKey_other _ _ _ _ (Ne.symm h1)]

theorem verify_token_ok (t : JWT) (i : Nat) (alg : String) (now e : Nat)
    (hsig : t.signedWith = .priv i) (halg : t.alg = alg)
    (hexp : t.payload.get "exp" = some (.nat e)) (h : now < e) :
    verify_token t (.pub i) alg now = .ok t.payload := by
  simp [verify_token, jwtDecode, hsig, halg, Key.verifies, hexp, h]

theorem verify_token_expired (t : JWT) (i : Nat) (alg : String) (now e : Nat)
    (hsig : t.signedWith = .priv i) (halg : t.alg = alg)
    (hexp : t.payload.get "exp" = some (.nat e)) (h : ¬ now < e) :
    verify_token t (.pub i) alg now =
      .error { status := 401, detail := "Invalid token",
               headers := [("WWW-Authenticate", "Bearer")] } := by
  simp [verify_token, jwtDecode, hsig, halg, Key.verifies, hexp, h]

/-! ## The claims -/

/-- C5: for claims containing at least `sub` and `email`, a matching RSA key
pair, and a positive ttl, the token minted by `create_access_token` carries
the original claims augmented with `type=access`, `iat` and `exp`, and
`verify_token` on it returns exactly that payload when the current time is
before `exp` and fails with a 401 expiry error otherwise. -/
theorem c5_issue_access_verify_roundtrip
    (data : Claims) (i : Nat) (alg : String) (now ttl t : Nat)
    (httl : 0 < ttl) (u e : String)
    (hsub : data.get "sub" = some (.str u))
    (hemail : data.get "email" = some (.str e)) :
    ((create_access_token data (.priv i) alg now ttl).payload.get "type" =
        some (.str "access")
      ∧ (create_access_token data (.priv i) alg now ttl).payload.get "iat" =
        some (.nat now)
      ∧ (create_access_token data (.priv i) alg now ttl).payload.get "exp" =
        some (.nat (now + ttl))
      ∧ ∀ k, k ≠ "exp" → k ≠ "iat" → k ≠ "type" →
          (create_access_token data (.priv i) alg now ttl).payload.get k =
            data.get k)
    ∧ (t < now + ttl →
        verify_token (create_access_token data (.priv i) alg now ttl)
            (.pub i) alg t =
          .ok (create_access_token data (.priv i) alg now ttl).payload)
    ∧ (¬ t < now + ttl →
        verify_token (create_access_token data (.priv i) alg now ttl)
            (.pub i) alg t =
          .error { status := 401, detail := "Invalid token",
                   headers := [("WWW-Authenticate", "Bearer")] }) := by
  refine ⟨⟨access_payload_type _ _ _ _ _, access_payload_iat _ _ _ _ _,
          access_payload_exp _ _ _ _ _,
          fun k h1 h2 h3 => access_payload_other _ _ _ _ _ k h1 h2 h3⟩,
        fun h => verify_token_ok _ i alg t (now + ttl) rfl rfl
          (access_payload_exp _ _ _ _ _) h,
        fun h => verify_token_expired _ i alg t (now + ttl) rfl rfl
          (access_payload_exp _ _ _ _ _) h⟩

/-- Witness for C5 at concrete inputs. -/
theorem c5_issue_access_verify_roundtrip_witness :
    (0 < 1800 ∧
      Claims.get [("sub", JValue.str "u1"), ("email", JValue.str "a@b.c")]
          "sub" = some (.str "u1")) ∧
    verify_token
        (create_access_token
          [("sub", .str "u1"), ("email", .str "a@b.c")] (.priv 0) "RS256" 0 1800)
        (.pub 0) "RS256" 5 =
      .ok (create_access_token
          [("sub", .str "u1"), ("email", .str "a@b.c")] (.priv 0) "RS256" 0
          1800).payload :=
  ⟨⟨by decide, by decide⟩,
    (c5_issue_access_verify_roundtrip
      [("sub", .str "u1"), ("email", .str "a@b.c")] 0 "RS256" 0 1800 5
      (by decide) "u1" "a@b.c" (by decide) (by decide)).2.1 (by decide)⟩

/-- C3: cross-use of token types is rejected — a refresh token presented to
the downstream current-user derivation fails with 401 even though its
signature verifies and it is unexpired, and an access token presented to
`AuthService.refresh_token` likewise fails with 401. -/
theorem c3_token_type_cross_use_rejected
    (data : Claims) (i : Nat) (alg : String) (now0 ttl t : Nat)
    (jti : String) (hdr : Option String)
    (cfg : AuthServiceCfg) (store : RedisStore)
    (hexp : t < now0 + ttl)
    (hpk : cfg.public_key = .pub i) (halg : cfg.algorithm = alg)
    (hbl : store.get t (blacklistKey (tokenString
            (create_access_token data (.priv i) alg now0 ttl))) = none) :
    get_current_user (create_refresh_token data (.priv i) alg now0 ttl jti)
        (.pub i) alg t hdr =
      .error (.http { status := 401, detail := "Invalid token type" })
    ∧ AuthService.refresh_token cfg store t
        (create_access_token data (.priv i) alg now0 ttl) =
      .error (.http { status := 401, detail := "Invalid token type" }) := by
  constructor
  · have hv := verify_token_ok
      (create_refresh_token data (.priv i) alg now0 ttl jti) i alg t
      (now0 + ttl) rfl rfl (refresh_payload_exp _ _ _ _ _ _) hexp
    have hty := refresh_payload_type data (.priv i) alg now0 ttl jti
    simp [get_current_user, hv, hty]
  · have hv := verify_token_ok
      (create_access_token data (.priv i) alg now0 ttl) i alg t
      (now0 + ttl) rfl rfl (access_payload_exp _ _ _ _ _) hexp
    have hty := access_payload_type data (.priv i) alg now0 ttl
    simp [AuthService.refresh_token, hbl, hpk, halg, hv, hty]

/-- Witness for C3 at concrete inputs. -/
theorem c3_token_type_cross_use_rejected_witness :
    get_current_user
        (create_refresh_token [("sub", .str "u1"), ("email", .str "a@b.c")]
          (.priv 0) "RS256" 0 604800 "jti-1") (.pub 0) "RS256" 5 none =
      .error (.http { status := 401, detail := "Invalid token type" })
    ∧ AuthService.refresh_token ⟨.priv 0, .pub 0, "RS256", 1800, 604800⟩ ⟨[]⟩ 5
        (create_access_token [("sub", .str "u1"), ("email", .str "a@b.c")]
          (.priv 0) "RS256" 0 604800) =
      .error (.http { status := 401, detail := "Invalid token type" }) :=
  c3_token_type_cross_use_rejected
    [("sub", .str "u1"), ("email", .str "a@b.c")] 0 "RS256" 0 604800 5 "jti-1"
    none ⟨.priv 0, .pub 0, "RS256", 1800, 604800⟩ ⟨[]⟩ (by decide) rfl rfl rfl

/-- C1 (code bug): revocation does not make the refresh path reject.
`AuthService.logout` blacklists under `blacklist:{jti}` while
`AuthService.refresh_token` consults `blacklist:{refresh_token}` (the raw
token string), so for any refresh token carrying a `jti` claim — which
`create_refresh_token` always plants — the blacklist probe of a subsequent
refresh misses and a fresh access token is minted. Evaluated here at a
concrete revoked token. -/
theorem c1_revoked_refresh_token_still_mints :
    AuthService.logout ⟨.priv 0, .pub 0, "RS256", 1800, 604800⟩ ⟨[]⟩ 0
        (create_refresh_token [("sub", .str "u1"), ("email", .str "a@b.c")]
          (.priv 0) "RS256" 0 604800 "jti-1") =
      .ok ⟨[("blacklist:jti-1", "1", 604800)]⟩
    ∧ AuthService.refresh_token ⟨.priv 0, .pub 0, "RS256", 1800, 604800⟩
        ⟨[("blacklist:jti-1", "1", 604800)]⟩ 1
        (create_refresh_token [("sub", .str "u1"), ("email", .str "a@b.c")]
          (.priv 0) "RS256" 0 604800 "jti-1") =
      .ok (create_access_token [("sub", .str "u1"), ("email", .str "a@b.c")]
        (.priv 0) "RS256" 1 1800) := by
  exact ⟨rfl, rfl⟩

/-- C2: an `org_admin` principal short-circuits every project permission
check to success, for every permission and every membership value (including
an absent one), returning a `PermissionResult` rather than raising. -/
theorem c2_org_admin_bypasses_project_checks
    (user : TokenData) (membership : Option Membership)
    (permission : ProjectPermission)
    (h : user.org_role = some "org_admin") :
    check_project_permission user membership permission =
      .ok { role := "org_admin", user_id := user.user_id,
            org_id := user.org_id.getD "", check_assignment := false } := by
  simp [check_project_permission, h]

/-- Witness for C2 at a concrete org-admin principal, absent membership
covered by a second instantiation. -/
theorem c2_org_admin_bypasses_project_checks_witness :
    check_project_permission ⟨"u1", "a@b.c", some "o1", some "org_admin"⟩
        (some [("role", .str "viewer")]) ProjectPermission.delete_project =
      .ok { role := "org_admin", user_id := "u1", org_id := "o1",
            check_assignment := false }
    ∧ check_project_permission ⟨"u1", "a@b.c", some "o1", some "org_admin"⟩
        none ProjectPermission.edit_any_task =
      .ok { role := "org_admin", user_id := "u1", org_id := "o1",
            check_assignment := false } :=
  ⟨c2_org_admin_bypasses_project_checks _ _ _ rfl,
   c2_org_admin_bypasses_project_checks _ _ _ rfl⟩

/-- C6: a non-admin principal whose membership role is `team_member` is
denied `edit_any_task` with a 403 and allowed `edit_assigned_task` with
`check_assignment = true`; and in general every successful
`check_project_permission` sets `check_assignment` exactly when the resolved
role is `team_member` and the permission is one of the assigned-scoped task
variants. -/
theorem c6_team_member_assignment_scoping
    (user : TokenData) (m : Membership)
    (hadmin : user.org_role ≠ some "org_admin")
    (hrole : Claims.get m "role" = some (.str "team_member"))
    (hne : m.isEmpty = false) :
    check_project_permission user (some m) ProjectPermission.edit_any_task =
      .error (.http { status := 403,
                      detail := "Permission denied for role" })
    ∧ check_project_permission user (some m)
        ProjectPermission.edit_assigned_task =
      .ok { role := "team_member", user_id := user.user_id,
            org_id := user.org_id.getD "", check_assignment := true }
    ∧ ∀ (u : TokenData) (mem : Option Membership) (p : ProjectPermission)
        (pr : PermissionResult),
        check_project_permission u mem p = .ok pr →
        (pr.check_assignment = true ↔
          pr.role = "team_member" ∧
            (p = ProjectPermission.edit_assigned_task ∨
             p = ProjectPermission.delete_assigned_task)) := by
  refine ⟨?_, ?_, ?_⟩
  · simp [check_project_permission, hadmin, membershipFalsy, hne, hrole,
      ProjectRole.ofString, PROJECT_PERMISSIONS]
  · simp [check_project_permission, hadmin, membershipFalsy, hne, hrole,
      ProjectRole.ofString, PROJECT_PERMISSIONS, ProjectRole.value]
  · intro u mem p pr h
    unfold check_project_permission at h
    by_cases hA : u.org_role = some "org_admin"
    · simp only [hA, if_true, Except.ok.injEq] at h
      subst h
      simp
    · simp only [hA, if_false] at h
      by_cases hF : membershipFalsy mem
      · simp [hF] at h
      · simp only [hF, Bool.false_eq_true, if_false] at h
        cases hg : Claims.get (mem.getD []) "role" with
        | none => simp [hg] at h
        | some v =>
          cases v with
          | nat n => simp [hg] at h
          | str rs =>
            cases hr : ProjectRole.ofString rs with
            | none => simp [hg, hr] at h
            | some role =>
              by_cases hp : p ∈ PROJECT_PERMISSIONS role
              · simp only [hg, hr, hp, if_true, Except.ok.injEq] at h
                subst h
                cases role <;> cases p <;>
                  simp_all [ProjectRole.value, PROJECT_PERMISSIONS]
              · simp [hg, hr, hp] at h

/-- Witness for C6 at a concrete non-admin team member. -/
theorem c6_team_member_assignment_scoping_witness :
    check_project_permission ⟨"u1", "a@b.c", some "o1", some "member"⟩
        (some [("role", .str "team_member")])
        ProjectPermission.edit_any_task =
      .error (.http { status := 403,
                      detail := "Permission denied for role" })
    ∧ check_project_permission ⟨"u1", "a@b.c", some "o1", some "member"⟩
        (some [("role", .str "team_member")])
        ProjectPermission.edit_assigned_task =
      .ok { role := "team_member", user_id := "u1", org_id := "o1",
            check_assignment := true } :=
  ⟨(c6_team_member_assignment_scoping
      ⟨"u1", "a@b.c", some "o1", some "member"⟩
      [("role", .str "team_member")] (by decide) (by decide) (by decide)).1,
   (c6_team_member_assignment_scoping
      ⟨"u1", "a@b.c", some "o1", some "member"⟩
      [("role", .str "team_member")] (by decide) (by decide) (by decide)).2.1⟩

/-- C7 counterexample: an unknown role string does not fail loudly
everywhere — `get_project_permissions` and `get_org_permissions` catch the
`ValueError` and silently return the empty permission list. -/
theorem c7_unknown_role_counterexample :
    get_project_permissions "superuser" = []
    ∧ get_org_permissions "superuser" = []
    ∧ ProjectRole.ofString "superuser" = none
    ∧ OrgRole.ofString "superuser" = none :=
  ⟨rfl, rfl, rfl, rfl⟩

/-- C7 amended: for a role string in neither permission table, the
checking operations `check_org_permission` and `check_project_permission`
fail loudly — with an uncaught `ValueError` from the enum constructor, there
being no `ConfigurationError` class in the code — while `get_org_permissions`
and `get_project_permissions` swallow the `ValueError` and silently default
to the empty permission list. -/
theorem c7_unknown_role_behaviour
    (r : String) (user : TokenData) (m : Membership)
    (op : OrgPermission) (pp : ProjectPermission)
    (horg : OrgRole.ofString r = none)
    (hproj : ProjectRole.ofString r = none)
    (hne : r ≠ "")
    (huser : user.org_role = some r)
    (hm : Claims.get m "role" = some (.str r))
    (hmne : m.isEmpty = false) :
    check_org_permission user op = .error (.valueError r)
    ∧ check_project_permission user (some m) pp = .error (.valueError r)
    ∧ get_org_permissions r = []
    ∧ get_project_permissions r = [] := by
  have hadmin : r ≠ "org_admin" := by
    intro hcon
    rw [hcon] at horg
    simp [OrgRole.ofString] at horg
  refine ⟨?_, ?_, ?_, ?_⟩
  · simp [check_org_permission, huser, hne, horg]
  · have : user.org_role ≠ some "org_admin" := by
      rw [huser]
      simp [hadmin]
    simp [check_project_permission, this, membershipFalsy, hmne, hm, hproj]
  · simp [get_org_permissions, horg]
  · simp [get_project_permissions, hproj]

/-- Witness for the amended C7 at the concrete unknown role. -/
theorem c7_unknown_role_behaviour_witness :
    check_org_permission ⟨"u1", "a@b.c", some "o1", some "superuser"⟩
        OrgPermission.manage_projects = .error (.valueError "superuser")
    ∧ check_project_permission ⟨"u1", "a@b.c", some "o1", some "superuser"⟩
        (some [("role", .str "superuser")]) ProjectPermission.view =
      .error (.valueError "superuser")
    ∧ get_org_permissions "superuser" = []
    ∧ get_project_permissions "superuser" = [] :=
  c7_unknown_role_behaviour "superuser"
    ⟨"u1", "a@b.c", some "o1", some "superuser"⟩
    [("role", .str "superuser")] OrgPermission.manage_projects
    ProjectPermission.view rfl rfl (by decide) rfl rfl (by decide)

/-! ## Rate limiter lemmas -/

theorem zadd_fresh (l : List (String × Nat)) (m : String) (s : Nat)
    (h : ∀ p ∈ l, m ≠ p.1) : zadd l m s = l ++ [(m, s)] := by
  induction l with
  | nil => rfl
  | cons e rest ih =>
    have he : e.1 ≠ m := Ne.symm (h e (by simp))
    simp only [zadd, he, if_false]
    rw [ih (fun p hp => h p (by simp [hp]))]
    simp

/-- The 429 response of an exceeded window. -/
def rateLimit429 : HTTPException :=
  { status := 429, detail := "Rate limit exceeded",
    headers := [("Retry-After", "60")] }

theorem check_rate_limit_fresh_step (limit : Nat) (st : RLState) (t : Nat)
    (m : String)
    (hexp : st.expireAt ≤ t → st.members = [])
    (hscore : ∀ p ∈ st.members, (t : Int) - 60 < (p.2 : Int))
    (hfresh : ∀ p ∈ st.members, m ≠ p.1) :
    check_rate_limit limit st t m =
      (⟨st.members ++ [(m, t)], t + 120⟩,
        if st.members.length + 1 ≤ limit then .ok ()
        else .error rateLimit429) := by
  have hlive : (if st.expireAt ≤ t then [] else st.members) = st.members := by
    by_cases hc : st.expireAt ≤ t
    · rw [if_pos hc, hexp hc]
    · rw [if_neg hc]
  have hpruned :
      st.members.filter
          (fun e => decide ¬((e.2 : Int) ≤ (t : Int) - 60)) =
        st.members := by
    rw [List.filter_eq_self]
    intro p hp
    have := hscore p hp
    simp only [decide_eq_true_eq]
    omega
  simp only [check_rate_limit, hlive]
  rw [hpruned, zadd_fresh _ _ _ hfresh]
  by_cases hc : st.members.length + 1 ≤ limit
  · rw [if_pos hc,
      if_neg (show ¬((st.members ++ [(m, t)]).length > limit) by
        simp only [List.length_append, List.length_cons, List.length_nil]
        omega)]
  · rw [if_neg hc,
      if_pos (show (st.members ++ [(m, t)]).length > limit by
        simp only [List.length_append, List.length_cons, List.length_nil]
        omega)]
    rfl

theorem rlRun_within_window (limit : Nat) :
    ∀ (reqs : List (Nat × String)) (st : RLState),
      List.Pairwise (fun a b : Nat × String => a.1 ≤ b.1) reqs →
      (∀ a ∈ reqs, ∀ b ∈ reqs, a.1 < b.1 + 60) →
      (List.map Prod.snd reqs).Nodup →
      (∀ r ∈ reqs, ∀ p ∈ st.members, (r.1 : Int) - 60 < (p.2 : Int)) →
      (∀ r ∈ reqs, ∀ p ∈ st.members, r.2 ≠ p.1) →
      (∀ r ∈ reqs, st.expireAt ≤ r.1 → st.members = []) →
      (rlRun limit st reqs).2
        = (List.range reqs.length).map
            (fun i => if st.members.length + i + 1 ≤ limit then Except.ok ()
              else Except.error rateLimit429)
      ∧ (rlRun limit st reqs).1.members
          = st.members ++ reqs.map (fun r => (r.2, r.1))
  | [], st => by
    intro _ _ _ _ _ _
    exact ⟨rfl, by simp [rlRun]⟩
  | (t, m) :: rest, st => by
    intro hpw hwin hnd hscore hfresh hexp
    obtain ⟨hhd, hpw'⟩ := List.pairwise_cons.mp hpw
    have hstep := check_rate_limit_fresh_step limit st t m
      (hexp (t, m) (by simp))
      (fun p hp => hscore (t, m) (by simp) p hp)
      (fun p hp => hfresh (t, m) (by simp) p hp)
    have h0 : m ∉ List.map Prod.snd rest ∧ (List.map Prod.snd rest).Nodup := by
      rw [← List.nodup_cons]
      simpa using hnd
    have hndrest : (List.map Prod.snd rest).Nodup := h0.2
    have hmfresh : ∀ r ∈ rest, r.2 ≠ m := by
      intro r hr hcon
      exact h0.1 (by
        rw [← hcon]
        exact List.mem_map_of_mem _ hr)
    have ih := rlRun_within_window limit rest
      ⟨st.members ++ [(m, t)], t + 120⟩ hpw'
      (fun a ha b hb => hwin a (by simp [ha]) b (by simp [hb]))
      hndrest
      (by
        intro r hr p hp
        rcases List.mem_append.mp hp with hmem | hmem
        · exact hscore r (by simp [hr]) p hmem
        · have hpe : p = (m, t) := by simpa using hmem
          subst hpe
          have := hwin r (by simp [hr]) (t, m) (by simp)
          show (r.1 : Int) - 60 < (t : Int)
          omega)
      (by
        intro r hr p hp
        rcases List.mem_append.mp hp with hmem | hmem
        · exact hfresh r (by simp [hr]) p hmem
        · have hpe : p = (m, t) := by simpa using hmem
          subst hpe
          exact hmfresh r hr)
      (by
        intro r hr hle
        exfalso
        have h1 := hwin r (by simp [hr]) (t, m) (by simp)
        have h2 : t + 120 ≤ r.1 := hle
        omega)
    obtain ⟨ihout, ihmem⟩ := ih
    constructor
    · show (rlRun limit st ((t, m) :: rest)).2 = _
      simp only [rlRun, hstep]
      rw [ihout]
      rw [List.length_cons, List.range_succ_eq_map, List.map_cons,
        List.map_map]
      refine congrArg₂ List.cons ?_ ?_
      · dsimp only
      · apply List.map_congr_left
        intro i _
        dsimp only [Function.comp]
        simp only [List.length_append, List.length_cons, List.length_nil]
        exact if_congr (by omega) rfl rfl
    · show (rlRun limit st ((t, m) :: rest)).1.members = _
      simp only [rlRun, hstep]
      rw [ihmem]
      simp

theorem range_map_threshold {α : Type} (N : Nat) (A B : α) :
    (List.range (N + 1)).map (fun i => if i + 1 ≤ N then A else B)
      = List.replicate N A ++ [B] := by
  induction N with
  | zero => simp
  | succ n ih =>
    rw [List.range_succ, List.map_append]
    have h1 : (List.range (n + 1)).map
        (fun i => if i + 1 ≤ n + 1 then A else B)
        = (List.range (n + 1)).map (fun _ => A) := by
      apply List.map_congr_left
      intro i hi
      rw [List.mem_range] at hi
      rw [if_pos (by omega)]
    rw [h1]
    simp only [List.map_const', List.length_range, List.map_cons,
      List.map_nil]
    rw [if_neg (by omega)]

/-- C4: with a per-minute threshold of `N`, for any `N + 1` requests from one
client identity arriving in nondecreasing order within one 60-second sliding
window (with distinct per-request members, as the code constructs them), the
first `N` are allowed, the `(N+1)`-th is denied with a 429 carrying a
`Retry-After: 60` hint, and once the window has fully elapsed a further
request from the same identity is allowed again. -/
theorem c4_sliding_window_rate_limit
    (N : Nat) (hN : 0 < N) (reqs : List (Nat × String))
    (hlen : reqs.length = N + 1)
    (hpw : List.Pairwise (fun a b : Nat × String => a.1 ≤ b.1) reqs)
    (hwin : ∀ a ∈ reqs, ∀ b ∈ reqs, a.1 < b.1 + 60)
    (hnd : (reqs.map Prod.snd).Nodup)
    (t' : Nat) (m' : String) (hlate : ∀ r ∈ reqs, r.1 + 60 ≤ t') :
    (rlRun N RLState.empty reqs).2
      = List.replicate N (Except.ok ()) ++ [Except.error rateLimit429]
    ∧ (check_rate_limit N (rlRun N RLState.empty reqs).1 t' m').2 =
      .ok () := by
  obtain ⟨houts, hmem⟩ := rlRun_within_window N reqs RLState.empty hpw hwin
    hnd (by simp [RLState.empty]) (by simp [RLState.empty])
    (fun _ _ _ => rfl)
  constructor
  · rw [houts, hlen]
    have hz : (List.range (N + 1)).map
        (fun i => if RLState.empty.members.length + i + 1 ≤ N
          then Except.ok () else Except.error rateLimit429)
        = (List.range (N + 1)).map
            (fun i => if i + 1 ≤ N
              then Except.ok () else Except.error rateLimit429) := by
      apply List.map_congr_left
      intro i _
      exact if_congr (by simp [RLState.empty]) rfl rfl
    rw [hz, range_map_threshold]
  · have hm : (rlRun N RLState.empty reqs).1.members
        = reqs.map (fun r => (r.2, r.1)) := by
      rw [hmem]
      simp [RLState.empty]
    have hfilter : ∀ L, L = [] ∨ L = (rlRun N RLState.empty reqs).1.members →
        L.filter (fun e => decide ¬((e.2 : Int) ≤ (t' : Int) - 60)) = [] := by
      intro L hL
      rcases hL with hL | hL
      · simp [hL]
      · rw [hL, hm, List.filter_eq_nil_iff]
        intro p hp
        rw [List.mem_map] at hp
        obtain ⟨r, hr, hpr⟩ := hp
        have := hlate r hr
        subst hpr
        simp only [decide_eq_true_eq, not_not]
        omega
    simp only [check_rate_limit]
    by_cases hc : (rlRun N RLState.empty reqs).1.expireAt ≤ t'
    · rw [if_pos hc, hfilter [] (Or.inl rfl)]
      rw [show zadd [] m' t' = [(m', t')] from rfl]
      rw [if_neg (by simp; omega)]
    · rw [if_neg hc, hfilter _ (Or.inr rfl)]
      rw [show zadd [] m' t' = [(m', t')] from rfl]
      rw [if_neg (by simp; omega)]

/-- Witness for C4: threshold 2, three requests inside one window, then one
after it has elapsed. -/
theorem c4_sliding_window_rate_limit_witness :
    (rlRun 2 RLState.empty [(100, "a"), (100, "b"), (101, "c")]).2
      = List.replicate 2 (Except.ok ()) ++ [Except.error rateLimit429]
    ∧ (check_rate_limit 2
        (rlRun 2 RLState.empty [(100, "a"), (100, "b"), (101, "c")]).1
        161 "d").2 = .ok () :=
  c4_sliding_window_rate_limit 2 (by decide)
    [(100, "a"), (100, "b"), (101, "c")] (by decide) (by decide) (by decide)
    (by decide) 161 "d" (by decide)

/-- C8 counterexample: authentication is skipped by prefix, not by allowlist
membership — `/api/v1/auth/registerX` is not in `PUBLIC_PATHS`, yet
`gateway_auth` succeeds on it with no credential at all. -/
theorem c8_public_prefix_counterexample :
    gateway_auth { public_key := .pub 0, jwt_algorithm := "RS256" } 0
        { full_path := "/api/v1/auth/registerX", auth := .missing } = .ok []
    ∧ ("/api/v1/auth/registerX" ∈ PUBLIC_PATHS → False) := by
  exact ⟨rfl, by decide⟩

/-- C8 amended: authentication is skipped exactly when the request path has a
public-allowlist entry as a prefix; every request whose path has no such
prefix and that lacks a Bearer `Authorization` header, or carries one that
fails verification, is rejected with a 401; and any authentication failure
makes `proxy` return that error rather than forward. -/
theorem c8_gateway_auth_allowlist
    (settings : GatewaySettings) (now : Nat) (req : GatewayRequest)
    (redis : Option RLState) (reqId : String)
    (hrl : ∀ st, redis = some st →
      (check_rate_limit settings.rate_limit_per_minute st now reqId).2 =
        .ok ()) :
    (is_public_path req.full_path = true →
      gateway_auth settings now req = .ok [])
    ∧ (is_public_path req.full_path = false →
        (req.auth = .missing ∨ (∃ raw, req.auth = .notBearer raw)) →
        gateway_auth settings now req =
          .error { status := 401,
                   detail := "Missing or invalid authorization header" })
    ∧ (is_public_path req.full_path = false →
        ∀ tok, req.auth = .bearer tok →
        ∀ e, verify_token tok settings.public_key settings.jwt_algorithm now =
          .error e →
        gateway_auth settings now req =
          .error { status := 401, detail := "Invalid token" })
    ∧ (∀ e, gateway_auth settings now req = .error e →
        (proxy settings redis now reqId req).2 = .err e) := by
  refine ⟨?_, ?_, ?_, ?_⟩
  · intro hp
    simp [gateway_auth, hp]
  · intro hp hm
    rcases hm with hm | ⟨raw, hm⟩ <;> simp [gateway_auth, hp, hm]
  · intro hp tok htok e hv
    simp [gateway_auth, hp, htok, hv]
  · intro e he
    cases hred : redis with
    | none => simp [proxy, he]
    | some st =>
      rcases hcr : check_rate_limit settings.rate_limit_per_minute st now reqId
        with ⟨st', r⟩
      have hok : r = .ok () := by
        have := hrl st hred
        rw [hcr] at this
        exact this
      subst hok
      simp [proxy, hcr, he]

/-- Witness for the amended C8 at concrete requests. -/
theorem c8_gateway_auth_allowlist_witness :
    gateway_auth { public_key := .pub 0, jwt_algorithm := "RS256" } 0
        { full_path := "/api/v1/auth/login", auth := .missing } = .ok []
    ∧ gateway_auth { public_key := .pub 0, jwt_algorithm := "RS256" } 0
        { full_path := "/api/v1/tasks/1", auth := .missing } =
      .error { status := 401,
               detail := "Missing or invalid authorization header" }
    ∧ (proxy { public_key := .pub 0, jwt_algorithm := "RS256" } none 0 "r1"
        { full_path := "/api/v1/tasks/1", auth := .missing }).2 =
      .err { status := 401,
             detail := "Missing or invalid authorization header" } := by
  have h := c8_gateway_auth_allowlist
    { public_key := .pub 0, jwt_algorithm := "RS256" } 0
    { full_path := "/api/v1/tasks/1", auth := .missing } none "r1"
    (fun _ hcon => by cases hcon)
  have h2 := h.2.1 (by decide) (Or.inl rfl)
  refine ⟨(c8_gateway_auth_allowlist
    { public_key := .pub 0, jwt_algorithm := "RS256" } 0
    { full_path := "/api/v1/auth/login", auth := .missing } none "r1"
    (fun _ hcon => by cases hcon)).1 (by decide), h2, h.2.2.2 _ h2⟩

/-- C9: a request whose path matches no configured backend prefix yields a
404 from `proxy` (given that it passes rate limiting and authentication) —
not a crash and not a forward. -/
theorem c9_unmatched_route_404
    (settings : GatewaySettings) (redis : Option RLState) (now : Nat)
    (reqId : String) (req : GatewayRequest) (claims : Claims)
    (hrl : ∀ st, redis = some st →
      (check_rate_limit settings.rate_limit_per_minute st now reqId).2 =
        .ok ())
    (hauth : gateway_auth settings now req = .ok claims)
    (hroute : resolve_service_url settings req.full_path = none) :
    (proxy settings redis now reqId req).2 =
      .err { status := 404, detail := "Service not found for this path" } := by
  cases hred : redis with
  | none => simp [proxy, hauth, hroute]
  | some st =>
    rcases hcr : check_rate_limit settings.rate_limit_per_minute st now reqId
      with ⟨st', r⟩
    have hok : r = .ok () := by
      have := hrl st hred
      rw [hcr] at this
      exact this
    subst hok
    simp [proxy, hcr, hauth, hroute]

/-- Witness for C9: an authenticated request to `/api/v1/bogus/123`. -/
theorem c9_unmatched_route_404_witness :
    (proxy { public_key := .pub 0, jwt_algorithm := "RS256" } none 5 "r1"
        { full_path := "/api/v1/bogus/123",
          auth := .bearer (create_access_token
            [("sub", .str "u1"), ("email", .str "a@b.c")]
            (.priv 0) "RS256" 0 1800) }).2 =
      .err { status := 404, detail := "Service not found for this path" } :=
  c9_unmatched_route_404 { public_key := .pub 0, jwt_algorithm := "RS256" }
    none 5 "r1"
    { full_path := "/api/v1/bogus/123",
      auth := .bearer (create_access_token
        [("sub", .str "u1"), ("email", .str "a@b.c")]
        (.priv 0) "RS256" 0 1800) }
    (create_access_token [("sub", .str "u1"), ("email", .str "a@b.c")]
      (.priv 0) "RS256" 0 1800).payload
    (fun _ hcon => by cases hcon) rfl rfl

/-- C10 (implicit): the gateway checks only signature and expiry — a valid,
unexpired refresh token on a non-public path is accepted and forwarded with
`X-User-Id`/`X-Org-Id` injected from its claims, while the downstream
current-user derivation is what rejects it with 401. -/
theorem c10_gateway_forwards_refresh_tokens
    (settings : GatewaySettings) (redis : Option RLState) (now : Nat)
    (reqId path : String) (data : Claims) (i : Nat) (now0 ttl : Nat)
    (jti : String) (base down uid oid : String) (hdr : Option String)
    (hrl : ∀ st, redis = some st →
      (check_rate_limit settings.rate_limit_per_minute st now reqId).2 =
        .ok ())
    (hkey : settings.public_key = .pub i)
    (hexp : now < now0 + ttl)
    (hpub : is_public_path path = false)
    (hroute : resolve_service_url settings path = some (base, down))
    (hsub : data.truthyStr "sub" = some uid)
    (horg : data.truthyStr "org_id" = some oid) :
    (proxy settings redis now reqId
        { full_path := path,
          auth := .bearer (create_refresh_token data (.priv i)
            settings.jwt_algorithm now0 ttl jti) }).2 =
      .forward base down (some uid) (some oid)
    ∧ get_current_user
        (create_refresh_token data (.priv i) settings.jwt_algorithm now0 ttl
          jti) (.pub i) settings.jwt_algorithm now hdr =
      .error (.http { status := 401, detail := "Invalid token type" }) := by
  have hv := verify_token_ok
    (create_refresh_token data (.priv i) settings.jwt_algorithm now0 ttl jti)
    i settings.jwt_algorithm now (now0 + ttl) rfl rfl
    (refresh_payload_exp _ _ _ _ _ _) hexp
  have hpay_sub :
      (create_refresh_token data (.priv i) settings.jwt_algorithm now0 ttl
        jti).payload.truthyStr "sub" = some uid := by
    rw [Claims.truthyStr,
      refresh_payload_other _ _ _ _ _ _ _ (by decide) (by decide) (by decide)
        (by decide)]
    rw [Claims.truthyStr] at hsub
    exact hsub
  have hpay_org :
      (create_refresh_token data (.priv i) settings.jwt_algorithm now0 ttl
        jti).payload.truthyStr "org_id" = some oid := by
    rw [Claims.truthyStr,
      refresh_payload_other _ _ _ _ _ _ _ (by decide) (by decide) (by decide)
        (by decide)]
    rw [Claims.truthyStr] at horg
    exact horg
  have hauth : gateway_auth settings now
      { full_path := path,
        auth := .bearer (create_refresh_token data (.priv i)
          settings.jwt_algorithm now0 ttl jti) } =
      .ok (create_refresh_token data (.priv i) settings.jwt_algorithm now0 ttl
        jti).payload := by
    rw [gateway_auth]
    simp only [hpub, Bool.false_eq_true, if_false, hkey, hv]
  constructor
  · cases hred : redis with
    | none => simp [proxy, hauth, hroute, hpay_sub, hpay_org]
    | some st =>
      rcases hcr : check_rate_limit settings.rate_limit_per_minute st now reqId
        with ⟨st', r⟩
      have hok : r = .ok () := by
        have := hrl st hred
        rw [hcr] at this
        exact this
      subst hok
      simp [proxy, hcr, hauth, hroute, hpay_sub, hpay_org]
  · have hty := refresh_payload_type data (.priv i) settings.jwt_algorithm
      now0 ttl jti
    simp [get_current_user, hv, hty]

/-- Witness for C10: a refresh token presented on `/api/v1/tasks/1`. -/
theorem c10_gateway_forwards_refresh_tokens_witness :
    (proxy { public_key := .pub 0, jwt_algorithm := "RS256" } none 5 "r1"
        { full_path := "/api/v1/tasks/1",
          auth := .bearer (create_refresh_token
            [("sub", .str "u1"), ("email", .str "a@b.c"),
             ("org_id", .str "o1")] (.priv 0) "RS256" 0 604800 "jti-1") }).2 =
      .forward "http://task_service:8004" "/tasks/1" (some "u1") (some "o1")
    ∧ get_current_user
        (create_refresh_token
          [("sub", .str "u1"), ("email", .str "a@b.c"),
           ("org_id", .str "o1")] (.priv 0) "RS256" 0 604800 "jti-1")
        (.pub 0) "RS256" 5 none =
      .error (.http { status := 401, detail := "Invalid token type" }) :=
  c10_gateway_forwards_refresh_tokens
    { public_key := .pub 0, jwt_algorithm := "RS256" } none 5 "r1"
    "/api/v1/tasks/1"
    [("sub", .str "u1"), ("email", .str "a@b.c"), ("org_id", .str "o1")]
    0 0 604800 "jti-1" "http://task_service:8004" "/tasks/1" "u1" "o1" none
    (fun _ hcon => by cases hcon) rfl (by decide) rfl rfl rfl rfl

end TaskPM
